import Mathlib

/-!
Shallow embedding of the aries-blog authentication handlers
(`AuthHandler.Register`, `Login`, `ForgetPwd`, `ResetPwd`) and of the
friend-link model (`Link.DeleteById`, `Link.MultiDelByIds`).

External collaborators (database faults, SMTP delivery, the random code
generator, captcha verification, password hashing) are passed in as
explicit oracle values or function parameters, so each handler is a pure
function from (form, oracles, time, state) to (result envelope, state).
-/

namespace Aries

/-- A user record: id, unique username, stored password hash, email, avatar. -/
structure UserM where
  id : Nat
  username : String
  pwd : String
  email : String
  userImg : String
deriving Repr, DecidableEq

/-- The zero-value user GORM leaves behind when a lookup finds nothing. -/
def emptyUser : UserM := ⟨0, "", "", "", ""⟩

/-- A settings group (`SysSetting`): id and name. -/
structure SysSetting where
  id : Nat
  name : String
deriving Repr, DecidableEq

/-- A settings key/value item (`SysSettingItem`), keyed by (group id, key). -/
structure SysSettingItem where
  sysId : Nat
  key : String
  val : String
deriving Repr, DecidableEq

/-- One entry of the TTL key-value cache: key, value, absolute expiry time. -/
structure CacheEntry where
  key : String
  val : String
  expiresAt : Nat
deriving Repr, DecidableEq

/-- An email handed to the SMTP dialer: recipient, subject, body. -/
structure EmailMsg where
  recipient : String
  subject : String
  body : String
deriving Repr, DecidableEq

/-- The persistent and transient state the auth handlers touch:
database tables, the TTL cache, and the log of emails actually sent. -/
structure AppState where
  users : List UserM
  sysSettings : List SysSetting
  sysSettingItems : List SysSettingItem
  cache : List CacheEntry
  sentEmails : List EmailMsg
deriving Repr, DecidableEq

/-- Semantic response codes of `utils.Result`: success / request error /
server error. -/
inductive ResCode where
  | success
  | requestError
  | serverError
deriving Repr, DecidableEq

/-- The token payload returned by a successful login (`utils.Token`). -/
structure TokenData where
  token : String
  userId : Nat
  username : String
  userImg : String
deriving Repr, DecidableEq

/-- The uniform response envelope (`utils.Result`): code, message, data. -/
structure ApiResult where
  code : ResCode
  msg : String
  data : Option TokenData
deriving Repr, DecidableEq

/-- `setting.Cache.Get` at time `now`: the value stored under `k`,
provided the entry has not expired. -/
def cacheGet (c : List CacheEntry) (now : Nat) (k : String) : Option String :=
  (c.find? (fun e => e.key == k && decide (now < e.expiresAt))).map (fun e => e.val)

/-- `setting.Cache.Set` at time `now` with time-to-live `ttl` (seconds):
stores `v` under `k`, replacing any previous entry for `k`. -/
def cacheSet (c : List CacheEntry) (now : Nat) (k v : String) (ttl : Nat) : List CacheEntry :=
  ⟨k, v, now + ttl⟩ :: c.filter (fun e => e.key != k)

/-- The registration form (`forms.RegisterForm`): username, password, email,
site name, site URL. -/
structure RegisterForm where
  username : String
  password : String
  email : String
  siteName : String
  siteUrl : String
deriving Repr, DecidableEq

/-- Modelled from the spec: `RegisterForm.BindToModel` (the forms package is
not among the reviewed sources) binds the form to a user entity carrying the
username, the to-be-hashed password and the email. -/
def registerBindToModel (encryptPwd : String → String) (f : RegisterForm) : UserM :=
  { id := 0, username := f.username, pwd := encryptPwd f.password
    email := f.email, userImg := "" }

/-- Faults injected into `Register`'s database calls: the error returned by
the `GetByUsername` lookup's driver, and the errors of the three writes. -/
structure RegisterOracle where
  lookupFault : Option String
  createUserErr : Option String
  createSettingErr : Option String
  itemsErr : Option String
deriving Repr, DecidableEq

/-- `User.GetByUsername`: on a driver fault the zero user and the error;
otherwise the first record with that username, or the zero user together
with a record-not-found error. -/
def getByUsername (users : List UserM) (fault : Option String) (name : String) :
    UserM × Option String :=
  match fault with
  | some e => (emptyUser, some e)
  | none =>
    match users.find? (fun u => u.username == name) with
    | some u => (u, none)
    | none => (emptyUser, some "record not found")

/-- `User.Create`: appends the record with a fresh auto-increment id. -/
def userCreate (st : AppState) (u : UserM) : AppState :=
  { st with users := st.users ++ [{ u with id := st.users.length + 1 }] }

/-- `SysSettingItem.MultiCreateOrUpdate` upsert of one item, keyed by
(group id, key). -/
def upsertItem (items : List SysSettingItem) (it : SysSettingItem) : List SysSettingItem :=
  if items.any (fun x => x.sysId == it.sysId && x.key == it.key) then
    items.map (fun x => if x.sysId == it.sysId && x.key == it.key then it else x)
  else
    items ++ [it]

/-- `SysSettingItem.MultiCreateOrUpdate`: batch upsert of the item list. -/
def multiCreateOrUpdate (items : List SysSettingItem) (list : List SysSettingItem) :
    List SysSettingItem :=
  list.foldl upsertItem items

/-- `AuthHandler.Register`: reject a username that already exists, else
create the user, a default "网站设置" settings group, and its three initial
items; any write failure surfaces as a generic server error. The error of
the username lookup is discarded, exactly as in the source
(`u, _ := user.GetByUsername()`). -/
def register (encryptPwd : String → String) (o : RegisterOracle)
    (f : RegisterForm) (st : AppState) : ApiResult × AppState :=
  let user := registerBindToModel encryptPwd f
  let u := (getByUsername st.users o.lookupFault f.username).1
  if u.username != "" then
    ({ code := ResCode.requestError, msg := "该用户已被注册", data := none }, st)
  else
    match o.createUserErr with
    | some _ => ({ code := ResCode.serverError, msg := "服务器端错误", data := none }, st)
    | none =>
      let st1 := userCreate st user
      match o.createSettingErr with
      | some _ => ({ code := ResCode.serverError, msg := "服务器端错误", data := none }, st1)
      | none =>
        let sysId := st1.sysSettings.length + 1
        let st2 := { st1 with sysSettings := st1.sysSettings ++ [⟨sysId, "网站设置"⟩] }
        let typeItem : SysSettingItem := ⟨sysId, "type_name", "网站设置"⟩
        let siteUrlItem : SysSettingItem := ⟨sysId, "site_url", f.siteUrl⟩
        let siteNameItem : SysSettingItem := ⟨sysId, "site_name", f.siteName⟩
        let itemList := [typeItem, siteNameItem, siteUrlItem]
        match o.itemsErr with
        | some _ => ({ code := ResCode.serverError, msg := "服务器端错误", data := none }, st2)
        | none =>
          let st3 := { st2 with
            sysSettingItems := multiCreateOrUpdate st2.sysSettingItems itemList }
          ({ code := ResCode.success, msg := "注册成功", data := none }, st3)

/-- The login form (`forms.LoginForm`): username, password, captcha id and
captcha value. -/
structure LoginForm where
  username : String
  password : String
  captchaId : String
  captchaVal : String
deriving Repr, DecidableEq

/-- External outcomes of `Login`'s collaborators: the captcha verifier's
verdict on the submitted id/value pair, the signed token string, and the
signing error, if any. -/
structure LoginOracle where
  captchaOk : Bool
  tokenStr : String
  signErr : Option String
deriving Repr, DecidableEq

/-- `AuthHandler.Login`: verify the captcha, look the user up by username,
verify the password against the stored hash via `verifyPwd`, then issue a
signed token. -/
def login (verifyPwd : String → String → Bool) (o : LoginOracle)
    (f : LoginForm) (st : AppState) : ApiResult × AppState :=
  if !o.captchaOk then
    ({ code := ResCode.requestError, msg := "验证码错误", data := none }, st)
  else
    let u := ((st.users.find? (fun x => x.username == f.username)).getD emptyUser)
    if u.username == "" then
      ({ code := ResCode.requestError, msg := "不存在该用户", data := none }, st)
    else if !(verifyPwd u.pwd f.password) then
      ({ code := ResCode.requestError, msg := "密码错误", data := none }, st)
    else
      match o.signErr with
      | some _ => ({ code := ResCode.serverError, msg := "服务器端错误", data := none }, st)
      | none =>
        ({ code := ResCode.success, msg := "登录成功"
           data := some ⟨o.tokenStr, u.id, u.username, u.userImg⟩ }, st)

/-- The forgot-password form (`forms.ForgetPwdForm`): the account email. -/
structure ForgetPwdForm where
  email : String
deriving Repr, DecidableEq

/-- External outcomes of `ForgetPwd`'s collaborators: the string
`utils.CreateRandomCode(6)` would produce on this request, and the SMTP
dialer's delivery error, if any. -/
structure ForgetOracle where
  freshCode : String
  smtpErr : Option String
deriving Repr, DecidableEq

/-- `User.GetByEmail`: the first record with that email, or the zero user. -/
def getByEmail (users : List UserM) (email : String) : UserM :=
  (users.find? (fun u => u.email == email)).getD emptyUser

/-- Modelled from the spec: `utils.GetForgetPwdEmailHTML` (not among the
reviewed sources) composes an HTML body embedding the username and the
verification code. -/
def getForgetPwdEmailHTML (username code : String) : String :=
  "<html>您好 " ++ username ++ "，您的验证码为 " ++ code ++ "</html>"

/-- The 15-minute TTL (`time.Minute * 15`) of a verification code, seconds. -/
def codeTTL : Nat := 15 * 60

/-- `AuthHandler.ForgetPwd`: look the user up by email; reuse an unexpired
cached code, else cache a fresh 6-character code with a 15-minute TTL; then
email the code. The cache write happens before the SMTP send, so it
survives a delivery failure. -/
def forgetPwd (o : ForgetOracle) (f : ForgetPwdForm) (now : Nat)
    (st : AppState) : ApiResult × AppState :=
  let user := getByEmail st.users f.email
  if user.username == "" then
    ({ code := ResCode.requestError, msg := "不存在该邮箱帐号", data := none }, st)
  else
    let cached := (cacheGet st.cache now f.email).getD ""
    let verifyCode := if cached == "" then o.freshCode else cached
    let cache1 :=
      if cached == "" then cacheSet st.cache now f.email o.freshCode codeTTL
      else st.cache
    let msg : EmailMsg :=
      ⟨f.email, "忘记密码验证", getForgetPwdEmailHTML user.username verifyCode⟩
    let st1 := { st with cache := cache1 }
    match o.smtpErr with
    | some _ =>
      ({ code := ResCode.serverError, msg := "验证码发送失败，请检查 smtp 配置", data := none }, st1)
    | none =>
      ({ code := ResCode.success, msg := "验证码发送成功，请前往邮箱查看", data := none },
       { st1 with sentEmails := st1.sentEmails ++ [msg] })

/-- The reset-password form (`forms.ResetPwdForm`): email, submitted
verification code, new password. -/
structure ResetPwdForm where
  email : String
  verifyCode : String
  password : String
deriving Repr, DecidableEq

/-- The fault injected into `ResetPwd`'s database update (`User.UpdatePwd`). -/
structure ResetOracle where
  updateErr : Option String
deriving Repr, DecidableEq

/-- `User.UpdatePwd`: sets the stored hash of every record with the given
email to the new hash. -/
def updatePwd (users : List UserM) (email newPwd : String) : List UserM :=
  users.map (fun u => if u.email == email then { u with pwd := newPwd } else u)

/-- `AuthHandler.ResetPwd`: read the cached code for the email (the empty
string when absent or expired), reject on mismatch with the submitted code,
else persist the new password hash. The cache entry is never written. -/
def resetPwd (encryptPwd : String → String) (o : ResetOracle)
    (f : ResetPwdForm) (now : Nat) (st : AppState) : ApiResult × AppState :=
  let verifyCode := (cacheGet st.cache now f.email).getD ""
  if verifyCode != f.verifyCode then
    ({ code := ResCode.requestError, msg := "验证码无效或错误", data := none }, st)
  else
    match o.updateErr with
    | some _ => ({ code := ResCode.serverError, msg := "服务器端错误", data := none }, st)
    | none =>
      ({ code := ResCode.success, msg := "重置密码成功", data := none },
       { st with users := updatePwd st.users f.email (encryptPwd f.password) })

/-- A friend-link record. `deletedAt` is GORM's soft-delete marker
(`gorm.Model.DeletedAt`): ordinary scoped queries see only records where it
is `none`. -/
structure LinkM where
  id : Nat
  deletedAt : Option Nat
  categoryId : Option Nat
  name : String
  url : String
  descr : String
  icon : String
deriving Repr, DecidableEq

/-- `Link.DeleteById`: `db.Where(id = ?).Unscoped().Delete(&Link{})` —
`Unscoped` bypasses the soft-delete marker, so every row whose id matches
is permanently removed from the table. -/
def linkDeleteById (table : List LinkM) (id : String) : List LinkM :=
  table.filter (fun l => toString l.id != id)

/-- `strings.Split(s, ",")` on the character list: splits at every comma,
keeping empty fields, as Go does. -/
def splitComma (cs : List Char) : List (List Char) :=
  match cs with
  | [] => [[]]
  | c :: rest =>
    let r := splitComma rest
    if c = ',' then [] :: r
    else
      match r with
      | [] => [[c]]
      | h :: t => (c :: h) :: t

/-- `strings.Split(s, ",")`. -/
def stringsSplitComma (s : String) : List String :=
  (splitComma s.toList).map (fun cs => String.mk cs)

/-- `Link.MultiDelByIds`: splits the comma-separated id list and
permanently removes (`Unscoped().Delete`) every row whose id is listed. -/
def linkMultiDelByIds (table : List LinkM) (ids : String) : List LinkM :=
  let idList := stringsSplitComma ids
  table.filter (fun l => !(idList.contains (toString l.id)))

/-- Modelled from the spec: the soft delete the spec describes — mark the
record's `deleted_at` timestamp instead of removing the row — for
comparison against the source's `linkDeleteById`. -/
def linkSoftDeleteById (table : List LinkM) (id : String) (now : Nat) : List LinkM :=
  table.map (fun l => if toString l.id == id then { l with deletedAt := some now } else l)

/-! Concrete fixtures used by witnesses and counterexamples. -/

/-- A registered user, as in the spec's concrete scenario. -/
def alice : UserM := ⟨1, "alice", "h9f3salted", "a@x.com", ""⟩

/-- A state holding exactly the user `alice` and nothing else. -/
def st0 : AppState := ⟨[alice], [], [], [], []⟩

/-- C1: registering a username that already belongs to an existing user
record yields the request-error envelope "该用户已被注册" and leaves the
state unchanged: no user, no settings group, no settings items created. -/
theorem C1_register_duplicate_rejected (encryptPwd : String → String)
    (o : RegisterOracle) (f : RegisterForm) (st : AppState)
    (hfault : o.lookupFault = none) (hne : f.username ≠ "")
    (hex : ∃ u ∈ st.users, u.username = f.username) :
    register encryptPwd o f st =
      ({ code := ResCode.requestError, msg := "该用户已被注册", data := none }, st) := by
  obtain ⟨u0, hu0, hname⟩ := hex
  have hsome : (st.users.find? (fun u => u.username == f.username)).isSome := by
    rw [List.find?_isSome]
    exact ⟨u0, hu0, by simp [hname]⟩
  obtain ⟨u, hu⟩ := Option.isSome_iff_exists.mp hsome
  have hpred := List.find?_some hu
  have huname : u.username = f.username := by simpa using hpred
  unfold register getByUsername
  rw [hfault, hu]
  simp [huname, hne]

/-- Witness for C1: re-registering "alice" over a state that already holds
user "alice" is rejected with "该用户已被注册" and changes nothing. -/
theorem C1_register_duplicate_rejected_witness :
    register (fun s => s) ⟨none, none, none, none⟩
        ⟨"alice", "Secret123!", "a@x.com", "Blog", "https://b.example"⟩ st0 =
      ({ code := ResCode.requestError, msg := "该用户已被注册", data := none }, st0) :=
  C1_register_duplicate_rejected _ _ _ _ rfl (by decide) ⟨alice, by decide, by decide⟩

/-- C2: when captcha verification fails, `Login` answers the request-error
envelope "验证码错误" and leaves the state unchanged — the result is a
constant, independent of the submitted username, the submitted password,
the stored records, and the password verifier. -/
theorem C2_login_bad_captcha (verifyPwd : String → String → Bool)
    (o : LoginOracle) (f : LoginForm) (st : AppState)
    (hc : o.captchaOk = false) :
    login verifyPwd o f st =
      ({ code := ResCode.requestError, msg := "验证码错误", data := none }, st) := by
  simp [login, hc]

/-- Witness for C2: a failed captcha rejects even a login whose username
and password are both correct for the stored record. -/
theorem C2_login_bad_captcha_witness :
    login (fun stored p => stored == p) ⟨false, "tok", none⟩
        ⟨"alice", "h9f3salted", "cid", "wrong"⟩ st0 =
      ({ code := ResCode.requestError, msg := "验证码错误", data := none }, st0) :=
  C2_login_bad_captcha _ _ _ _ rfl

/-- C3: with a valid captcha and an existing username, a password that the
hash verifier rejects yields the request-error envelope "密码错误" with no
token; the submitted password influences the outcome only through the hash
verifier (first conjunct quantifies over every submitted password, so in
particular one plaintext-equal to the stored value is still rejected). -/
theorem C3_login_wrong_password (verifyPwd : String → String → Bool)
    (o : LoginOracle) (f : LoginForm) (st : AppState) (u : UserM)
    (hc : o.captchaOk = true)
    (hu : st.users.find? (fun x => x.username == f.username) = some u)
    (hne : u.username ≠ "") :
    (∀ p : String, verifyPwd u.pwd p = false →
      login verifyPwd o { f with password := p } st =
        ({ code := ResCode.requestError, msg := "密码错误", data := none }, st)) ∧
    (verifyPwd u.pwd f.password = false →
      login verifyPwd o f st =
        ({ code := ResCode.requestError, msg := "密码错误", data := none }, st)) := by
  constructor
  · intro p hp
    simp [login, hc, hu, hne, hp]
  · intro hp
    simp [login, hc, hu, hne, hp]

/-- Witness for C3: a verifier that rejects this pair makes `Login` answer
"密码错误" even though the submitted password is plaintext-equal to the
stored value — the handler never falls back to plaintext comparison. -/
theorem C3_login_wrong_password_witness :
    login (fun _ _ => false) ⟨true, "tok", none⟩
        ⟨"alice", "h9f3salted", "cid", "val"⟩ st0 =
      ({ code := ResCode.requestError, msg := "密码错误", data := none }, st0) :=
  (C3_login_wrong_password (fun _ _ => false) ⟨true, "tok", none⟩
      ⟨"alice", "h9f3salted", "cid", "val"⟩ st0 alice rfl (by decide) (by decide)).2 rfl

/-- C8: a forgot-password request for an email that matches no user record
yields the request-error envelope "不存在该邮箱帐号" and leaves the state
unchanged: no email is sent and nothing is written to the cache. -/
theorem C8_forget_unknown_email (o : ForgetOracle) (f : ForgetPwdForm)
    (now : Nat) (st : AppState)
    (h : st.users.find? (fun u => u.email == f.email) = none) :
    forgetPwd o f now st =
      ({ code := ResCode.requestError, msg := "不存在该邮箱帐号", data := none }, st) := by
  simp [forgetPwd, getByEmail, h, emptyUser]

/-- Witness for C8: forgot-password for the unregistered email "b@y.com"
over a state holding only "alice"/"a@x.com" is rejected with
"不存在该邮箱帐号" and sends no email. -/
theorem C8_forget_unknown_email_witness :
    forgetPwd ⟨"XYZ789", none⟩ ⟨"b@y.com"⟩ 0 st0 =
      ({ code := ResCode.requestError, msg := "不存在该邮箱帐号", data := none }, st0) :=
  C8_forget_unknown_email _ _ _ _ (by decide)

/-- C6: a reset-password request whose submitted code differs from the value
the cache read yields for that email (the empty string when no code is
cached or it has expired) is answered with the request-error envelope
"验证码无效或错误" and the state — in particular every stored password
hash — is unchanged. -/
theorem C6_reset_code_mismatch (encryptPwd : String → String)
    (o : ResetOracle) (f : ResetPwdForm) (now : Nat) (st : AppState)
    (h : (cacheGet st.cache now f.email).getD "" ≠ f.verifyCode) :
    resetPwd encryptPwd o f now st =
      ({ code := ResCode.requestError, msg := "验证码无效或错误", data := none }, st) := by
  simp [resetPwd, bne_iff_ne, h]

/-- Witness for C6: resetting with code "123456" while nothing is cached for
the email is rejected and alice's stored hash is untouched. -/
theorem C6_reset_code_mismatch_witness :
    resetPwd (fun s => s) ⟨none⟩ ⟨"a@x.com", "123456", "NewPw1!"⟩ 0 st0 =
      ({ code := ResCode.requestError, msg := "验证码无效或错误", data := none }, st0) :=
  C6_reset_code_mismatch _ _ _ _ _ (by decide)

/-- C7: a successful reset leaves the cache entry for the email unchanged,
so a second reset with the same email and code, made while the entry is
still unexpired, succeeds as well — the code can be replayed within its
TTL window. -/
theorem C7_reset_replay_within_ttl (encryptPwd : String → String)
    (o1 o2 : ResetOracle) (f : ResetPwdForm) (t1 t2 : Nat) (st : AppState)
    (h1 : cacheGet st.cache t1 f.email = some f.verifyCode)
    (h2 : cacheGet st.cache t2 f.email = some f.verifyCode)
    (ho1 : o1.updateErr = none) (ho2 : o2.updateErr = none) :
    (resetPwd encryptPwd o1 f t1 st).1 =
      { code := ResCode.success, msg := "重置密码成功", data := none } ∧
    ((resetPwd encryptPwd o1 f t1 st).2).cache = st.cache ∧
    (resetPwd encryptPwd o2 f t2 (resetPwd encryptPwd o1 f t1 st).2).1 =
      { code := ResCode.success, msg := "重置密码成功", data := none } := by
  refine ⟨?_, ?_, ?_⟩ <;> simp [resetPwd, h1, h2, ho1, ho2]

/-- Witness for C7: with code "123456" cached for "a@x.com" until time 900,
resets at times 0 and 10 with that same code both succeed, and the first
leaves the cache untouched. -/
theorem C7_reset_replay_within_ttl_witness :
    (resetPwd (fun s => s) ⟨none⟩ ⟨"a@x.com", "123456", "NewPw1!"⟩ 0
        ⟨[alice], [], [], [⟨"a@x.com", "123456", 900⟩], []⟩).1 =
      { code := ResCode.success, msg := "重置密码成功", data := none } ∧
    ((resetPwd (fun s => s) ⟨none⟩ ⟨"a@x.com", "123456", "NewPw1!"⟩ 0
        ⟨[alice], [], [], [⟨"a@x.com", "123456", 900⟩], []⟩).2).cache =
      [⟨"a@x.com", "123456", 900⟩] ∧
    (resetPwd (fun s => s) ⟨none⟩ ⟨"a@x.com", "123456", "NewPw1!"⟩ 10
        (resetPwd (fun s => s) ⟨none⟩ ⟨"a@x.com", "123456", "NewPw1!"⟩ 0
          ⟨[alice], [], [], [⟨"a@x.com", "123456", 900⟩], []⟩).2).1 =
      { code := ResCode.success, msg := "重置密码成功", data := none } :=
  C7_reset_replay_within_ttl (fun s => s) ⟨none⟩ ⟨none⟩
    ⟨"a@x.com", "123456", "NewPw1!"⟩ 0 10
    ⟨[alice], [], [], [⟨"a@x.com", "123456", 900⟩], []⟩
    (by decide) (by decide) rfl rfl

/-- The cache read that follows a fresh `cacheSet` within the TTL window
returns the stored value. -/
theorem cacheGet_after_set (c : List CacheEntry) (t1 t2 : Nat) (k v : String)
    (ttl : Nat) (ht : t2 < t1 + ttl) :
    cacheGet (cacheSet c t1 k v ttl) t2 k = some v := by
  unfold cacheGet cacheSet
  rw [List.find?_cons_of_pos _ (by simp [ht])]
  rfl

/-- C4: with no unexpired code cached for a registered email, a first
forgot-password request emails the freshly generated code and caches it;
a second request made while that entry is unexpired emails the identical
code and does not overwrite the cache — whatever the generator would have
produced the second time. -/
theorem C4_forget_resend_idempotent (o1 o2 : ForgetOracle) (f : ForgetPwdForm)
    (t1 t2 : Nat) (st : AppState) (u : UserM)
    (hu : st.users.find? (fun x => x.email == f.email) = some u)
    (hne : u.username ≠ "")
    (hmiss : cacheGet st.cache t1 f.email = none)
    (hlen : o1.freshCode.length = 6)
    (ht : t2 < t1 + codeTTL)
    (hs1 : o1.smtpErr = none) (hs2 : o2.smtpErr = none) :
    (forgetPwd o1 f t1 st).1.code = ResCode.success ∧
    (forgetPwd o1 f t1 st).2.sentEmails = st.sentEmails ++
      [⟨f.email, "忘记密码验证", getForgetPwdEmailHTML u.username o1.freshCode⟩] ∧
    (forgetPwd o2 f t2 (forgetPwd o1 f t1 st).2).2.sentEmails = st.sentEmails ++
      [⟨f.email, "忘记密码验证", getForgetPwdEmailHTML u.username o1.freshCode⟩,
       ⟨f.email, "忘记密码验证", getForgetPwdEmailHTML u.username o1.freshCode⟩] ∧
    (forgetPwd o2 f t2 (forgetPwd o1 f t1 st).2).2.cache =
      (forgetPwd o1 f t1 st).2.cache := by
  have hfne : o1.freshCode ≠ "" := by
    intro h
    rw [h] at hlen
    simp at hlen
  have hget2 : cacheGet (cacheSet st.cache t1 f.email o1.freshCode codeTTL) t2 f.email =
      some o1.freshCode := cacheGet_after_set _ _ _ _ _ _ ht
  refine ⟨?_, ?_, ?_, ?_⟩ <;>
    simp [forgetPwd, getByEmail, hu, hne, hmiss, hs1, hs2, hget2, hfne]

/-- Witness for C4: with nothing cached, a first request at time 0 emails
and caches "QX7P2M"; a second request at time 890 — inside the 900-second
TTL, with the generator ready to return "ZZZZZZ" — emails "QX7P2M" again
and leaves the cache as the first request wrote it. -/
theorem C4_forget_resend_idempotent_witness :
    (forgetPwd ⟨"QX7P2M", none⟩ ⟨"a@x.com"⟩ 0 st0).1.code = ResCode.success ∧
    (forgetPwd ⟨"QX7P2M", none⟩ ⟨"a@x.com"⟩ 0 st0).2.sentEmails =
      [⟨"a@x.com", "忘记密码验证", getForgetPwdEmailHTML "alice" "QX7P2M"⟩] ∧
    (forgetPwd ⟨"ZZZZZZ", none⟩ ⟨"a@x.com"⟩ 890
        (forgetPwd ⟨"QX7P2M", none⟩ ⟨"a@x.com"⟩ 0 st0).2).2.sentEmails =
      [⟨"a@x.com", "忘记密码验证", getForgetPwdEmailHTML "alice" "QX7P2M"⟩,
       ⟨"a@x.com", "忘记密码验证", getForgetPwdEmailHTML "alice" "QX7P2M"⟩] ∧
    (forgetPwd ⟨"ZZZZZZ", none⟩ ⟨"a@x.com"⟩ 890
        (forgetPwd ⟨"QX7P2M", none⟩ ⟨"a@x.com"⟩ 0 st0).2).2.cache =
      (forgetPwd ⟨"QX7P2M", none⟩ ⟨"a@x.com"⟩ 0 st0).2.cache :=
  C4_forget_resend_idempotent ⟨"QX7P2M", none⟩ ⟨"ZZZZZZ", none⟩ ⟨"a@x.com"⟩
    0 890 st0 alice (by decide) (by decide) (by decide) (by decide)
    (by decide) rfl rfl

/-- A state whose cache holds the code "ABC123" for "a@x.com", expiring at
time 900. -/
def st5 : AppState := ⟨[alice], [], [], [⟨"a@x.com", "ABC123", 900⟩], []⟩

/-- Counterexample to C5: at time 1000 the cached code "ABC123" has expired,
and the generator — drawing at random — may return "ABC123" again; the
handler then stores a new code that is NOT different from the previous one.
Nothing in the code compares the fresh draw with the old code. -/
theorem C5_counterexample_code_can_repeat :
    cacheGet st5.cache 1000 "a@x.com" = none ∧
    st5.cache.map (fun e => e.val) = ["ABC123"] ∧
    (forgetPwd ⟨"ABC123", none⟩ ⟨"a@x.com"⟩ 1000 st5).2.cache =
      [⟨"a@x.com", "ABC123", 1900⟩] ∧
    ¬ ((forgetPwd ⟨"ABC123", none⟩ ⟨"a@x.com"⟩ 1000 st5).2.cache.map
        (fun e => e.val) ≠ st5.cache.map (fun e => e.val)) := by
  refine ⟨by decide, by decide, by decide, by decide⟩

/-- C5 (amended): once the previous entry has expired, a forgot-password
request stores whatever 6-character code the generator freshly produces —
with a new 15-minute TTL, replacing the old entry — and emails that code;
the fresh draw is not guaranteed to differ from the previous code. -/
theorem C5_expired_code_regenerated (o : ForgetOracle) (f : ForgetPwdForm)
    (now : Nat) (st : AppState) (u : UserM)
    (hu : st.users.find? (fun x => x.email == f.email) = some u)
    (hne : u.username ≠ "")
    (hmiss : cacheGet st.cache now f.email = none)
    (_hlen : o.freshCode.length = 6)
    (hs : o.smtpErr = none) :
    (forgetPwd o f now st).2.cache =
      ⟨f.email, o.freshCode, now + codeTTL⟩ ::
        st.cache.filter (fun e => e.key != f.email) ∧
    (forgetPwd o f now st).2.sentEmails = st.sentEmails ++
      [⟨f.email, "忘记密码验证", getForgetPwdEmailHTML u.username o.freshCode⟩] := by
  constructor <;> simp [forgetPwd, getByEmail, cacheSet, hu, hne, hmiss, hs]

/-- Witness for C5 (amended): at time 1000, past the entry expiring at 900,
the request replaces the cache entry with the fresh draw "XK42QP" (TTL up
to 1900) and emails it. -/
theorem C5_expired_code_regenerated_witness :
    (forgetPwd ⟨"XK42QP", none⟩ ⟨"a@x.com"⟩ 1000 st5).2.cache =
      [⟨"a@x.com", "XK42QP", 1900⟩] ∧
    (forgetPwd ⟨"XK42QP", none⟩ ⟨"a@x.com"⟩ 1000 st5).2.sentEmails =
      [⟨"a@x.com", "忘记密码验证", getForgetPwdEmailHTML "alice" "XK42QP"⟩] :=
  C5_expired_code_regenerated ⟨"XK42QP", none⟩ ⟨"a@x.com"⟩ 1000 st5 alice
    (by decide) (by decide) (by decide) (by decide) rfl

/-- A live (not soft-deleted) friend-link record with id 1. -/
def link1 : LinkM := ⟨1, none, none, "site", "https://s.example", "d", "i"⟩

/-- Counterexample to C9: deleting the only friend-link (id 1) through
`DeleteById` or `MultiDelByIds` leaves an empty table — the record is
permanently removed, not marked — whereas the soft delete the spec
describes would have kept the row with its `deleted_at` marker set. -/
theorem C9_counterexample_delete_is_permanent :
    linkDeleteById [link1] "1" = [] ∧
    linkMultiDelByIds [link1] "1" = [] ∧
    ¬ (∃ l ∈ linkDeleteById [link1] "1", l.id = 1) ∧
    linkSoftDeleteById [link1] "1" 42 = [{ link1 with deletedAt := some 42 }] := by
  refine ⟨by decide, by decide, by decide, by decide⟩

/-- C9 (amended): `Link.DeleteById` and `Link.MultiDelByIds` are hard
deletes — the `Unscoped` delete permanently removes every row whose id
matches (respectively, is in the comma-separated list) from the table,
bypassing the soft-delete marker, and keeps exactly the non-matching
rows. -/
theorem C9_link_delete_is_hard (table : List LinkM) (id ids : String) (l : LinkM) :
    (l ∈ linkDeleteById table id ↔ l ∈ table ∧ toString l.id ≠ id) ∧
    (l ∈ linkMultiDelByIds table ids ↔
      l ∈ table ∧ toString l.id ∉ stringsSplitComma ids) := by
  constructor <;> simp [linkDeleteById, linkMultiDelByIds, List.mem_filter]

/-- C10: `Register` discards the error of the username lookup
(`u, _ := user.GetByUsername()`): when the lookup fails with an error —
yielding the zero user, whose username is empty — the handler treats the
username as unregistered and, the writes succeeding, reports success and
appends the new user record instead of reporting a server error. -/
theorem C10_register_lookup_error_discarded (encryptPwd : String → String)
    (o : RegisterOracle) (f : RegisterForm) (st : AppState) (e : String)
    (hfault : o.lookupFault = some e)
    (hcu : o.createUserErr = none) (hcs : o.createSettingErr = none)
    (hit : o.itemsErr = none) :
    (register encryptPwd o f st).1 =
      { code := ResCode.success, msg := "注册成功", data := none } ∧
    (register encryptPwd o f st).2.users = st.users ++
      [{ registerBindToModel encryptPwd f with id := st.users.length + 1 }] := by
  constructor <;>
    simp [register, getByUsername, userCreate, multiCreateOrUpdate,
      hfault, hcu, hcs, hit, emptyUser]

/-- Witness for C10: with a faulting lookup, registering "alice" over a
state that already holds user "alice" succeeds and appends a duplicate
"alice" record — the duplicate check is silently skipped. -/
theorem C10_register_lookup_error_discarded_witness :
    (register (fun s => s) ⟨some "connection refused", none, none, none⟩
        ⟨"alice", "Secret123!", "a@x.com", "Blog", "https://b.example"⟩ st0).1 =
      { code := ResCode.success, msg := "注册成功", data := none } ∧
    (register (fun s => s) ⟨some "connection refused", none, none, none⟩
        ⟨"alice", "Secret123!", "a@x.com", "Blog", "https://b.example"⟩ st0).2.users =
      [alice, ⟨2, "alice", "Secret123!", "a@x.com", ""⟩] :=
  C10_register_lookup_error_discarded (fun s => s)
    ⟨some "connection refused", none, none, none⟩
    ⟨"alice", "Secret123!", "a@x.com", "Blog", "https://b.example"⟩ st0
    "connection refused" rfl rfl rfl rfl

end Aries
